import Mathlib

/-!
Shallow embedding of the maelstrom-style node in `src/src/lib.rs`.

The Rust program is a single-threaded loop: it decodes newline-separated
JSON values into `Message`s, dispatches each through `Node::handle`, and
writes zero-or-one reply per request to stdout.  We embed the data model
and the state machine directly; the output stream is modelled by
collecting the replies a run emits into a list, and the fallible paths
(`Result`, the `expect` panic in `generate_id`, decode errors of the
input iterator) are modelled with `Except String` carrying the same
diagnostic strings the Rust code attaches.
-/

namespace DistSys

/-- The payload enum of `lib.rs` (`#[serde(tag = "type")]`, snake_case). -/
inductive Payload where
  | Init (node_id : String) (node_ids : List String)
  | InitOk
  | Echo (echo : String)
  | EchoOk (echo : String)
  | Generate
  | GenerateOk (id : String)
  | Topology (node_ids : List String)
  | TopologyOk
  | Broadcast (message : Int)
  | BroadcastOk
  | Read
  | ReadOk (messages : List Int)
  deriving DecidableEq, Repr

/-- `struct Body`: optional correlation fields plus the flattened payload. -/
structure Body where
  msg_id : Option Int
  in_reply_to : Option Int
  payload : Payload
  deriving DecidableEq, Repr

/-- `struct Message`: the wire envelope. -/
structure Message where
  src : String
  dest : String
  body : Body
  deriving DecidableEq, Repr

/-- Two's-complement wrap-around of an `i32` value: the semantics of the
overflowing `self.next_msg_id += 1` in release builds.  2147483648 is
2^31 and 4294967296 is 2^32; the result always lies in
[-2147483648, 2147483648). -/
def wrap32 (x : Int) : Int :=
  (x + 2147483648) % 4294967296 - 2147483648

/-- `struct Node` without the stdout handle (output is collected by
`run`).  `next_msg_id` is an `i32` in the source: it is an `Int` here
whose increments wrap through `wrap32`. -/
structure Node where
  messages : List Int
  next_msg_id : Int
  node_id : Option String
  node_ids : Option (List String)
  deriving DecidableEq, Repr

/-- `Node::new`: empty log, counter 0, no identity, no peers. -/
def Node.new : Node :=
  { messages := [], next_msg_id := 0, node_id := none, node_ids := none }

/-- `Node::init`: store identity and roster (the Rust method always returns `Ok`). -/
def Node.init (n : Node) (node_id : String) (node_ids : List String) : Node :=
  { n with node_id := some node_id, node_ids := some node_ids }

/-- `Node::generate_id`: `format!("{}-{}", n, self.next_msg_id)` after
`self.node_id.as_ref().expect("generating id before init")`; the `expect`
panic is modelled as an error carrying its diagnostic. -/
def Node.generate_id (n : Node) : Except String String :=
  match n.node_id with
  | none => .error "generating id before init"
  | some nid => .ok (nid ++ "-" ++ toString n.next_msg_id)

/-- `Node::reply`: build the reply (src/dest swapped, `msg_id` = current
counter, `in_reply_to` = the request's `msg_id`), then increment the
counter with `self.next_msg_id += 1` — an `i32` addition, so it wraps at
`i32::MAX`.  Returns the post-state and the message written to stdout. -/
def Node.reply (n : Node) (msg : Message) (payload : Payload) : Node × Message :=
  ({ n with next_msg_id := wrap32 (n.next_msg_id + 1) },
   { src := msg.dest
     dest := msg.src
     body := { msg_id := some n.next_msg_id
               in_reply_to := msg.body.msg_id
               payload := payload } })

/-- `Node::handle`: dispatch on the payload.  Result is the post-state and
the optional reply; `.error` models the panic inside the `Generate` arm. -/
def Node.handle (n : Node) (msg : Message) : Except String (Node × Option Message) :=
  match msg.body.payload with
  | .Echo e =>
      let p := n.reply msg (.EchoOk e)
      .ok (p.1, some p.2)
  | .Init node_id node_ids =>
      let p := (n.init node_id node_ids).reply msg .InitOk
      .ok (p.1, some p.2)
  | .Generate =>
      match n.generate_id with
      | .error e => .error e
      | .ok id =>
          let p := n.reply msg (.GenerateOk id)
          .ok (p.1, some p.2)
  | .Topology _ =>
      let p := n.reply msg (.Topology [])
      .ok (p.1, some p.2)
  | .Broadcast _ =>
      let p := n.reply msg .BroadcastOk
      .ok (p.1, some p.2)
  | .Read =>
      let p := n.reply msg (.ReadOk n.messages)
      .ok (p.1, some p.2)
  | _ => .ok (n, none)

/-- `Node::run`: the input stream is a list of decode results (`none` is a
unit serde could not deserialize).  The first component collects the
replies written before the loop stops; the second is the loop's outcome,
with the `context` strings of `lib.rs`. -/
def Node.run : Node → List (Option Message) → List Message × Except String Node
  | n, [] => ([], .ok n)
  | _, none :: _ => ([], .error "STDIN could not be deserialized")
  | n, some m :: rest =>
      match n.handle m with
      | .error e => ([], .error ("handler failed: " ++ e))
      | .ok (n', r) =>
          let p := Node.run n' rest
          (r.toList ++ p.1, p.2)

/-! ## JSON encoding

`serde_json` serialization of the derived `Serialize` impls.  `Body` has
`#[serde(flatten)]` on `payload` and no `skip_serializing_if` on its
`Option` fields, so serde serializes through a map in which a `None`
option is emitted as JSON `null`; the internally tagged enum contributes
the `"type"` tag followed by the variant's fields. -/

/-- JSON values, as far as this wire format needs them. -/
inductive Json where
  | null
  | num (n : Int)
  | str (s : String)
  | arr (xs : List Json)
  | obj (fields : List (String × Json))

/-- How serde serializes an `Option<i32>` field without
`skip_serializing_if`: `None` becomes `null`. -/
def optIntJson : Option Int → Json
  | none => .null
  | some i => .num i

/-- Fields contributed by the flattened, internally tagged `Payload`. -/
def payloadFields : Payload → List (String × Json)
  | .Init node_id node_ids =>
      [("type", .str "init"), ("node_id", .str node_id),
       ("node_ids", .arr (node_ids.map .str))]
  | .InitOk => [("type", .str "init_ok")]
  | .Echo e => [("type", .str "echo"), ("echo", .str e)]
  | .EchoOk e => [("type", .str "echo_ok"), ("echo", .str e)]
  | .Generate => [("type", .str "generate")]
  | .GenerateOk id => [("type", .str "generate_ok"), ("id", .str id)]
  | .Topology node_ids =>
      [("type", .str "topology"), ("node_ids", .arr (node_ids.map .str))]
  | .TopologyOk => [("type", .str "topology_ok")]
  | .Broadcast m => [("type", .str "broadcast"), ("message", .num m)]
  | .BroadcastOk => [("type", .str "broadcast_ok")]
  | .Read => [("type", .str "read")]
  | .ReadOk ms => [("type", .str "read_ok"), ("messages", .arr (ms.map .num))]

/-- The key/value pairs of a serialized `Body`: declaration order, the
option fields first (as `null` when absent), then the flattened payload. -/
def bodyFields (b : Body) : List (String × Json) :=
  ("msg_id", optIntJson b.msg_id) ::
  ("in_reply_to", optIntJson b.in_reply_to) ::
  payloadFields b.payload

/-- A serialized `Body`. -/
def encodeBody (b : Body) : Json := .obj (bodyFields b)

/-- A serialized `Message`. -/
def encodeMessage (m : Message) : Json :=
  .obj [("src", .str m.src), ("dest", .str m.dest), ("body", encodeBody m.body)]

/-! ## Concrete messages and states used by witnesses -/

/-- An echo request that carries no `msg_id`. -/
def echoNoId : Message :=
  { src := "c1", dest := "n1"
    body := { msg_id := none, in_reply_to := none, payload := .Echo "hi" } }

/-- The reply `Node.new` produces for `echoNoId`. -/
def echoNoIdReply : Message :=
  { src := "n1", dest := "c1"
    body := { msg_id := some 0, in_reply_to := none, payload := .EchoOk "hi" } }

/-- `Node.new` after sending one reply. -/
def nodeOne : Node :=
  { messages := [], next_msg_id := 1, node_id := none, node_ids := none }

/-- A concrete init request from client `c1`. -/
def initMsg : Message :=
  { src := "c1", dest := "n1"
    body := { msg_id := some 1, in_reply_to := none, payload := .Init "n1" ["n1"] } }

/-- The reply to `initMsg`. -/
def initReply : Message :=
  { src := "n1", dest := "c1"
    body := { msg_id := some 0, in_reply_to := some 1, payload := .InitOk } }

/-- The node state after handling `initMsg` from `Node.new`. -/
def nodeAfterInit : Node :=
  { messages := [], next_msg_id := 1, node_id := some "n1", node_ids := some ["n1"] }

/-- A concrete broadcast request delivering the value 1. -/
def bcastMsg : Message :=
  { src := "c1", dest := "n1"
    body := { msg_id := some 2, in_reply_to := none, payload := .Broadcast 1 } }

/-- A concrete read request. -/
def readMsg : Message :=
  { src := "c1", dest := "n1"
    body := { msg_id := some 3, in_reply_to := none, payload := .Read } }

/-- A concrete generate request. -/
def genMsg : Message :=
  { src := "c1", dest := "n1"
    body := { msg_id := some 2, in_reply_to := none, payload := .Generate } }

/-- An inbound `broadcast_ok` (a reply arriving at the node). -/
def okMsg : Message :=
  { src := "n2", dest := "n1"
    body := { msg_id := some 5, in_reply_to := none, payload := .BroadcastOk } }

/-- The node state after the init/broadcast/read exchange. -/
def nodeThree : Node :=
  { messages := [], next_msg_id := 3, node_id := some "n1", node_ids := some ["n1"] }

/-- A concrete topology request carrying a roster. -/
def topoMsg : Message :=
  { src := "c1", dest := "n1"
    body := { msg_id := some 4, in_reply_to := none, payload := .Topology ["n1", "n2"] } }

/-- The payloads covered by the wildcard arm of `Node::handle`
(`// ignore "oks" from other nodes`): exactly the reply variants. -/
def Payload.isOkVariant : Payload → Bool
  | .InitOk | .EchoOk _ | .GenerateOk _ | .TopologyOk | .BroadcastOk | .ReadOk _ => true
  | _ => false

/-- A stream of 2^31 + 1 echo requests: one more reply than the `i32`
counter can count without wrapping. -/
def bigEchoInput : List (Option Message) :=
  List.replicate 2147483649 (some echoNoId)

/-- An init followed by 2^31 - 1 echo requests: exactly 2^31 replies, so
the counter has just wrapped to `i32::MIN`. -/
def wrapRunInput : List (Option Message) :=
  some initMsg :: List.replicate 2147483647 (some echoNoId)

/-- The node state after `wrapRunInput`: identity set, log empty,
counter wrapped to -2^31. -/
def nodeWrapped : Node :=
  { messages := [], next_msg_id := -2147483648, node_id := some "n1", node_ids := some ["n1"] }

/-- `nodeWrapped` after emitting one more reply. -/
def nodeWrappedNext : Node :=
  { messages := [], next_msg_id := -2147483647, node_id := some "n1", node_ids := some ["n1"] }

/-- The reply `nodeWrapped` produces for `genMsg`: the id embeds the
wrapped counter value, not the count of replies already sent. -/
def genWrapReply : Message :=
  { src := "n1", dest := "c1",
    body := { msg_id := some (-2147483648), in_reply_to := some 2,
              payload := .GenerateOk "n1--2147483648" } }

example : Node.new.handle echoNoId = .ok (nodeOne, some echoNoIdReply) := rfl

example : Node.new.run [some initMsg] = ([initReply], .ok nodeAfterInit) := rfl

example :
    (Node.new.run [some initMsg, some bcastMsg, some readMsg]).2 = .ok nodeThree := rfl

/-! ## Structural lemmas about `handle` and `run` -/

/-- Rendering a counter value as an `Int` agrees with rendering the
number of replies it counts. -/
theorem toString_int_ofNat (k : Nat) : toString ((k : Int)) = toString k := rfl

/-- Wrapping the left summand first changes nothing: `wrap32` absorbs. -/
theorem wrap32_add_left (x y : Int) : wrap32 (wrap32 x + y) = wrap32 (x + y) := by
  simp only [wrap32]
  omega

/-- `wrap32` is idempotent. -/
theorem wrap32_wrap32 (x : Int) : wrap32 (wrap32 x) = wrap32 x := by
  have h := wrap32_add_left x 0
  simpa using h

/-- In-range values are fixed by `wrap32`. -/
theorem wrap32_eq_self {x : Int} (h1 : -2147483648 ≤ x) (h2 : x < 2147483648) :
    wrap32 x = x := by
  simp only [wrap32]
  omega

/-- Every reply `handle` produces swaps src/dest, correlates via the
request's `msg_id`, stamps the current counter, bumps the counter by one
(with `i32` wrap-around), leaves the log untouched, and a `ReadOk` reply
snapshots the log. -/
theorem handle_ok_some {n n' : Node} {m r : Message}
    (h : n.handle m = .ok (n', some r)) :
    r.src = m.dest ∧ r.dest = m.src ∧ r.body.in_reply_to = m.body.msg_id ∧
      r.body.msg_id = some n.next_msg_id ∧
      n'.next_msg_id = wrap32 (n.next_msg_id + 1) ∧
      n'.messages = n.messages ∧
      (∀ l, r.body.payload = .ReadOk l → l = n.messages) := by
  obtain ⟨s, d, mid, irt, pl⟩ := m
  cases pl <;>
    simp only [Node.handle, Node.reply, Node.init, Node.generate_id] at h
  case Echo e =>
    obtain ⟨hn, hr⟩ := by simpa using h
    subst hn; subst hr; simp
  case Init nid nids =>
    obtain ⟨hn, hr⟩ := by simpa using h
    subst hn; subst hr; simp
  case Generate =>
    cases hid : n.node_id with
    | none => rw [hid] at h; simp at h
    | some nid =>
      rw [hid] at h
      obtain ⟨hn, hr⟩ := by simpa using h
      subst hn; subst hr; simp
  case Topology ids =>
    obtain ⟨hn, hr⟩ := by simpa using h
    subst hn; subst hr; simp
  case Broadcast v =>
    obtain ⟨hn, hr⟩ := by simpa using h
    subst hn; subst hr; simp
  case Read =>
    obtain ⟨hn, hr⟩ := by simpa using h
    subst hn; subst hr; simp
  all_goals simp at h

/-- When `handle` succeeds without a reply the state is unchanged. -/
theorem handle_ok_none {n n' : Node} {m : Message}
    (h : n.handle m = .ok (n', none)) : n' = n := by
  obtain ⟨s, d, mid, irt, pl⟩ := m
  cases pl <;>
    simp only [Node.handle, Node.reply, Node.init, Node.generate_id] at h
  case Generate =>
    cases hid : n.node_id <;> rw [hid] at h <;> simp at h
  all_goals first
    | (injection h with h1; injection h1 with h2 h3; exact h2.symm)
    | simp at h

/-- Splitting a run at a successful prefix. -/
theorem run_append_ok {n n' : Node} {xs : List (Option Message)}
    (ys : List (Option Message)) (h : (n.run xs).2 = .ok n') :
    n.run (xs ++ ys) = ((n.run xs).1 ++ (n'.run ys).1, (n'.run ys).2) := by
  induction xs generalizing n with
  | nil =>
    simp only [Node.run] at h
    cases h
    simp [Node.run]
  | cons x rest ih =>
    cases x with
    | none => simp [Node.run] at h
    | some m =>
      rw [List.cons_append]
      cases hh : n.handle m with
      | error e => simp [Node.run, hh] at h
      | ok p =>
        obtain ⟨n₁, r⟩ := p
        simp only [Node.run, hh] at h ⊢
        rw [ih h]
        simp

/-- The counter of a successful run ends at the i32-wrapped sum of its
starting value and the number of replies emitted (for a starting value
that is itself a valid i32). -/
theorem run_next_msg_id {n n' : Node} {input : List (Option Message)}
    (hn : wrap32 n.next_msg_id = n.next_msg_id)
    (h : (n.run input).2 = .ok n') :
    n'.next_msg_id = wrap32 (n.next_msg_id + ((n.run input).1.length : Int)) := by
  induction input generalizing n with
  | nil =>
    simp only [Node.run] at h ⊢
    cases h
    simpa using hn.symm
  | cons x rest ih =>
    cases x with
    | none => simp [Node.run] at h
    | some m =>
      cases hh : n.handle m with
      | error e => simp [Node.run, hh] at h
      | ok p =>
        obtain ⟨n₁, r⟩ := p
        simp only [Node.run, hh] at h ⊢
        cases r with
        | none =>
          have he := handle_ok_none hh
          subst he
          simpa using ih hn h
        | some rr =>
          have hs := handle_ok_some hh
          have hn₁ : wrap32 n₁.next_msg_id = n₁.next_msg_id := by
            rw [hs.2.2.2.2.1, wrap32_wrap32]
          have hr := ih hn₁ h
          simp only [Option.toList_some, List.singleton_append, List.length_cons]
          rw [hr, hs.2.2.2.2.1, wrap32_add_left]
          congr 1
          push_cast
          omega

/-- The `msg_id`s of the replies a run emits, in emission order, are the
i32-wrapped consecutive values starting at the initial counter value
(for a starting value that is itself a valid i32). -/
theorem run_msg_ids (n : Node) (input : List (Option Message))
    (hn : wrap32 n.next_msg_id = n.next_msg_id) :
    (n.run input).1.map (fun r => r.body.msg_id)
      = (List.range (n.run input).1.length).map
          (fun i : Nat => some (wrap32 (n.next_msg_id + (i : Int)))) := by
  induction input generalizing n with
  | nil => simp [Node.run]
  | cons x rest ih =>
    cases x with
    | none => simp [Node.run]
    | some m =>
      cases hh : n.handle m with
      | error e => simp [Node.run, hh]
      | ok p =>
        obtain ⟨n₁, r⟩ := p
        simp only [Node.run, hh]
        cases r with
        | none =>
          have he := handle_ok_none hh
          subst he
          simpa using ih n₁ hn
        | some rr =>
          have hs := handle_ok_some hh
          have hn₁ : wrap32 n₁.next_msg_id = n₁.next_msg_id := by
            rw [hs.2.2.2.2.1, wrap32_wrap32]
          simp only [Option.toList_some, List.singleton_append, List.map_cons,
            List.length_cons, List.range_succ_eq_map, List.map_map, List.cons.injEq]
          refine ⟨?_, ?_⟩
          · rw [hs.2.2.2.1]
            simp [hn]
          · rw [ih n₁ hn₁, hs.2.2.2.2.1]
            apply List.map_congr_left
            intro i _
            simp only [Function.comp_apply]
            rw [wrap32_add_left]
            congr 2
            push_cast
            omega

/-- No step of a run ever changes the log, and every `ReadOk` reply
snapshots the (unchanged) log at the start of the run. -/
theorem run_messages (n : Node) (input : List (Option Message)) :
    (∀ n', (n.run input).2 = .ok n' → n'.messages = n.messages) ∧
      (∀ r ∈ (n.run input).1, ∀ l, r.body.payload = .ReadOk l → l = n.messages) := by
  induction input generalizing n with
  | nil =>
    refine ⟨?_, ?_⟩
    · intro n' h
      simp only [Node.run] at h
      cases h
      rfl
    · intro r hr
      simp [Node.run] at hr
  | cons x rest ih =>
    cases x with
    | none => simp [Node.run]
    | some m =>
      cases hh : n.handle m with
      | error e => simp [Node.run, hh]
      | ok p =>
        obtain ⟨n₁, r⟩ := p
        simp only [Node.run, hh]
        cases r with
        | none =>
          have he := handle_ok_none hh
          subst he
          simpa using ih n₁
        | some rr =>
          have hs := handle_ok_some hh
          have hmsgs : n₁.messages = n.messages := hs.2.2.2.2.2.1
          refine ⟨?_, ?_⟩
          · intro n' h'
            rw [(ih n₁).1 n' (by simpa using h'), hmsgs]
          · intro r hr l hl
            simp only [Option.toList_some, List.singleton_append, List.mem_cons] at hr
            rcases hr with hr | hr
            · subst hr; exact hs.2.2.2.2.2.2 l hl
            · rw [(ih n₁).2 r hr l hl, hmsgs]

/-- One step of the loop when the head decodes and its handler replies. -/
theorem run_cons_some (n : Node) (m : Message) (rest : List (Option Message))
    (n₁ : Node) (r : Message) (hh : n.handle m = .ok (n₁, some r)) :
    n.run (some m :: rest) = (r :: (n₁.run rest).1, (n₁.run rest).2) := by
  simp only [Node.run, hh, Option.toList_some, List.singleton_append]

/-- Running `k` copies of the msg_id-less echo request from a node whose
counter is a valid i32: `k` replies are emitted and the counter ends at
the i32-wrapped sum. -/
theorem run_replicate_echo (k : Nat) (n : Node)
    (hn : wrap32 n.next_msg_id = n.next_msg_id) :
    (n.run (List.replicate k (some echoNoId))).1.length = k ∧
      (n.run (List.replicate k (some echoNoId))).2
        = .ok { n with next_msg_id := wrap32 (n.next_msg_id + (k : Int)) } := by
  induction k generalizing n with
  | zero =>
    refine ⟨rfl, ?_⟩
    simp [Node.run, hn]
  | succ k ih =>
    have hh : n.handle echoNoId
        = .ok ({ n with next_msg_id := wrap32 (n.next_msg_id + 1) },
               some { src := echoNoId.dest, dest := echoNoId.src,
                      body := { msg_id := some n.next_msg_id, in_reply_to := echoNoId.body.msg_id,
                                payload := .EchoOk "hi" } }) := rfl
    have hn₁ : wrap32 (wrap32 (n.next_msg_id + 1)) = wrap32 (n.next_msg_id + 1) :=
      wrap32_wrap32 _
    obtain ⟨ihlen, ihres⟩ := ih { n with next_msg_id := wrap32 (n.next_msg_id + 1) } hn₁
    refine ⟨?_, ?_⟩
    · simp only [List.replicate_succ, Node.run, hh]
      simpa using ihlen
    · simp only [List.replicate_succ, Node.run, hh]
      rw [ihres]
      simp only [wrap32_add_left]
      congr 2
      congr 1
      push_cast
      omega

/-- A fresh node fed `initMsg` and then `k` echoes: `k + 1` replies, and
the counter ends at the i32-wrapped value of `1 + k`. -/
theorem run_init_echoes (k : Nat) :
    (Node.new.run (some initMsg :: List.replicate k (some echoNoId))).2
        = .ok { messages := [], next_msg_id := wrap32 (1 + (k : Int)),
                node_id := some "n1", node_ids := some ["n1"] } ∧
      (Node.new.run (some initMsg :: List.replicate k (some echoNoId))).1.length
        = k + 1 := by
  have hstep := run_cons_some Node.new initMsg (List.replicate k (some echoNoId))
    nodeAfterInit initReply rfl
  obtain ⟨hlen, hres⟩ := run_replicate_echo k nodeAfterInit rfl
  constructor
  · rw [hstep, hres]
    simp [nodeAfterInit]
  · rw [hstep]
    simp [hlen]

/-- Handling a generate request on an initialized node: the reply carries
the id `"{node_id}-{next_msg_id}"`. -/
theorem handle_generate (n : Node) (s d : String) (mid irt : Option Int) (nid : String)
    (hid : n.node_id = some nid) :
    n.handle { src := s, dest := d, body := { msg_id := mid, in_reply_to := irt, payload := .Generate } }
      = .ok ({ n with next_msg_id := wrap32 (n.next_msg_id + 1) },
             some { src := d, dest := s
                    body := { msg_id := some n.next_msg_id, in_reply_to := mid
                              payload := .GenerateOk (nid ++ "-" ++ toString n.next_msg_id) } }) := by
  simp [Node.handle, Node.generate_id, hid, Node.reply]

/-! ## The claims -/

/-- C1: the claim says handling `broadcast{v}` grows the node's log by
exactly the element `v`, so that a subsequent `read` returns the multiset
of broadcast values.  The code does not: the `Broadcast` arm of
`Node::handle` only replies `broadcast_ok` and never appends to
`self.messages`, so after `init`, `broadcast{1}`, `read` the `read_ok`
reply carries the empty list instead of `[1]`. -/
theorem c1_broadcast_not_logged :
    Node.new.handle bcastMsg
        = .ok (nodeOne,
            some { src := "n1", dest := "c1",
                   body := { msg_id := some 0, in_reply_to := some 2,
                             payload := .BroadcastOk } }) ∧
      nodeOne.messages = Node.new.messages ∧
      (Node.new.run [some initMsg, some bcastMsg, some readMsg]).1.map (fun r => r.body.payload)
        = [.InitOk, .BroadcastOk, .ReadOk []] :=
  ⟨rfl, rfl, rfl⟩

/-- C2 (counterexample): the claim says absent optional `Body` fields are
omitted from the emitted JSON and never written as `null`.  Handling an
echo request without a `msg_id` produces a reply whose `in_reply_to` is
absent, yet its serialized body carries the key `"in_reply_to"` with
value `null` — serde emits `null` for a `None` option when no
`skip_serializing_if` attribute is present, and `Body` has none. -/
theorem c2_counterexample :
    Node.new.handle echoNoId = .ok (nodeOne, some echoNoIdReply) ∧
      echoNoIdReply.body.in_reply_to = none ∧
      (bodyFields echoNoIdReply.body).lookup "in_reply_to" = some Json.null :=
  ⟨rfl, rfl, rfl⟩

/-- C2 (amended): for every serialized `Body`, the optional fields
`msg_id` and `in_reply_to` are always present as keys; when the field is
absent its value is serialized as JSON `null`, not omitted. -/
theorem c2_absent_fields_serialize_as_null (b : Body) :
    ((bodyFields b).lookup "msg_id"
        = some (optIntJson b.msg_id)) ∧
      ((bodyFields b).lookup "in_reply_to"
        = some (optIntJson b.in_reply_to)) ∧
      (b.msg_id = none → (bodyFields b).lookup "msg_id" = some Json.null) ∧
      (b.in_reply_to = none → (bodyFields b).lookup "in_reply_to" = some Json.null) := by
  obtain ⟨mid, irt, pl⟩ := b
  refine ⟨rfl, rfl, fun h => ?_, fun h => ?_⟩
  · subst h; rfl
  · subst h; rfl

/-- C2 witness: evaluated on the body of an `init_ok` reply with both
correlation fields absent. -/
theorem c2_witness :
    (bodyFields { msg_id := none, in_reply_to := none, payload := .InitOk }).lookup "msg_id"
        = some Json.null ∧
      (bodyFields { msg_id := none, in_reply_to := none, payload := .InitOk }).lookup "in_reply_to"
        = some Json.null :=
  ⟨(c2_absent_fields_serialize_as_null { msg_id := none, in_reply_to := none, payload := .InitOk }).2.2.1 rfl,
   (c2_absent_fields_serialize_as_null { msg_id := none, in_reply_to := none, payload := .InitOk }).2.2.2 rfl⟩

/-- C3: every reply swaps the envelope (`reply.src = request.dest`,
`reply.dest = request.src`) and correlates via the request's `msg_id`
(`reply.body.in_reply_to = request.body.msg_id`); an absent request
`msg_id` therefore yields an absent `in_reply_to`. -/
theorem c3_reply_correlation (n n' : Node) (m r : Message)
    (h : n.handle m = .ok (n', some r)) :
    r.src = m.dest ∧ r.dest = m.src ∧ r.body.in_reply_to = m.body.msg_id :=
  ⟨(handle_ok_some h).1, (handle_ok_some h).2.1, (handle_ok_some h).2.2.1⟩

/-- C3 witness: the echo request without a `msg_id` and its reply. -/
theorem c3_witness :
    echoNoIdReply.src = echoNoId.dest ∧ echoNoIdReply.dest = echoNoId.src ∧
      echoNoIdReply.body.in_reply_to = echoNoId.body.msg_id :=
  c3_reply_correlation Node.new nodeOne echoNoId echoNoIdReply rfl

/-- C4 (counterexample): the claim says the reply `msg_id`s of one node
are exactly `0, 1, 2, ...` with no gaps and no repeats across its whole
lifetime.  On a run of 2^31 + 1 echo requests the `i32` counter wraps:
the reply at index 2^31 carries `msg_id` -2147483648, not 2147483648, so
the claimed sequence is not emitted. -/
theorem c4_counterexample :
    (Node.new.run bigEchoInput).1.map (fun r => r.body.msg_id)
      ≠ (List.range (Node.new.run bigEchoInput).1.length).map
          (fun i : Nat => some (i : Int)) := by
  have hlen : (Node.new.run bigEchoInput).1.length = 2147483649 :=
    (run_replicate_echo 2147483649 Node.new rfl).1
  have hids := run_msg_ids Node.new bigEchoInput rfl
  intro h
  rw [hids, List.map_inj_left] at h
  have h2 := h 2147483648 (by rw [hlen]; exact List.mem_range.mpr (by omega))
  simp only [Node.new, Option.some.injEq, wrap32] at h2
  omega

/-- C4 (amended): each emitted reply carries the current counter as its
`msg_id` and the counter is bumped by one with `i32` wrap-around, so the
reply `msg_id`s of a node are the wrapped values `wrap32 0, wrap32 1,
...` in emission order — exactly the gap-free sequence `0, 1, 2, ...`
as long as the node emits at most 2^31 replies. -/
theorem c4_msg_id_sequence :
    (∀ (n : Node) (m : Message) (n' : Node) (r : Message),
        n.handle m = .ok (n', some r) →
          r.body.msg_id = some n.next_msg_id ∧
            n'.next_msg_id = wrap32 (n.next_msg_id + 1)) ∧
      (∀ input : List (Option Message),
        (Node.new.run input).1.map (fun r => r.body.msg_id)
          = (List.range (Node.new.run input).1.length).map
              (fun i : Nat => some (wrap32 i))) ∧
      ∀ input : List (Option Message),
        (Node.new.run input).1.length ≤ 2147483648 →
          (Node.new.run input).1.map (fun r => r.body.msg_id)
            = (List.range (Node.new.run input).1.length).map
                (fun i : Nat => some (i : Int)) := by
  refine ⟨fun n m n' r h => ⟨(handle_ok_some h).2.2.2.1, (handle_ok_some h).2.2.2.2.1⟩,
    fun input => ?_, fun input hlen => ?_⟩
  · have h := run_msg_ids Node.new input rfl
    simpa [Node.new] using h
  · have h := run_msg_ids Node.new input rfl
    rw [h]
    apply List.map_congr_left
    intro i hi
    rw [List.mem_range] at hi
    have hw : wrap32 (Node.new.next_msg_id + (i : Int)) = (i : Int) := by
      simp only [Node.new, wrap32]
      omega
    rw [hw]

/-- C4 witness: the first reply of a fresh node carries `msg_id` 0, the
counter moves to `wrap32 1`, and a one-echo run emits the sequence
`[some 0]`. -/
theorem c4_witness :
    (echoNoIdReply.body.msg_id = some Node.new.next_msg_id ∧
        nodeOne.next_msg_id = wrap32 (Node.new.next_msg_id + 1)) ∧
      (Node.new.run [some echoNoId]).1.map (fun r => r.body.msg_id)
        = (List.range (Node.new.run [some echoNoId]).1.length).map
            (fun i : Nat => some (i : Int)) :=
  ⟨c4_msg_id_sequence.1 Node.new echoNoId nodeOne echoNoIdReply rfl,
   c4_msg_id_sequence.2.2 [some echoNoId] (by decide)⟩

/-- C5 (counterexample): the claim says a generate reply's id is
`"{node_id}-{k}"` with `k` the count of replies sent before it.  After
`init` plus 2^31 - 1 echoes the node has sent 2147483648 replies but its
`i32` counter has wrapped to -2147483648, so the next generate reply
carries id `"n1--2147483648"`, not the claimed `"n1-2147483648"`. -/
theorem c5_counterexample :
    (Node.new.run wrapRunInput).2 = .ok nodeWrapped ∧
      (Node.new.run wrapRunInput).1.length = 2147483648 ∧
      nodeWrapped.node_id = some "n1" ∧
      nodeWrapped.handle genMsg = .ok (nodeWrappedNext, some genWrapReply) ∧
      genWrapReply.body.payload
        ≠ .GenerateOk ("n1" ++ "-" ++ toString (Node.new.run wrapRunInput).1.length) := by
  have hb2 : (Node.new.run wrapRunInput).1.length = 2147483648 :=
    (run_init_echoes 2147483647).2.trans rfl
  refine ⟨(run_init_echoes 2147483647).1.trans (congrArg Except.ok (by decide)),
    hb2, rfl, rfl, ?_⟩
  intro h
  have h2 := h.trans
    (congrArg (fun k => Payload.GenerateOk ("n1" ++ "-" ++ toString k)) hb2)
  revert h2
  decide

/-- C5 (amended): a node that (starting fresh) has run to a state whose
identity is `node_id` — which only an `init` can set — replies to
`generate` with the id `"{node_id}-{t}"` where `t` is the i32-wrapped
count of replies sent before this one; while that count is below 2^31
(no wrap yet) the id is exactly `"{node_id}-{k}"` with `k` the count
itself. -/
theorem c5_generate_id_format (input : List (Option Message)) (rs : List Message)
    (n : Node) (nid : String) (s d : String) (mid irt : Option Int)
    (hrun : Node.new.run input = (rs, .ok n))
    (hid : n.node_id = some nid) :
    ∃ n' r, n.handle { src := s, dest := d,
                       body := { msg_id := mid, in_reply_to := irt, payload := .Generate } }
        = .ok (n', some r) ∧
      r.body.payload = .GenerateOk (nid ++ "-" ++ toString (wrap32 rs.length)) ∧
      (rs.length < 2147483648 →
        r.body.payload = .GenerateOk (nid ++ "-" ++ toString rs.length)) := by
  have hnext : n.next_msg_id = wrap32 (rs.length : Int) := by
    have h2 : (Node.new.run input).2 = .ok n := by rw [hrun]
    have h3 := run_next_msg_id rfl h2
    rw [hrun] at h3
    simpa [Node.new] using h3
  refine ⟨_, _, handle_generate n s d mid irt nid hid, ?_, fun hlt => ?_⟩
  · rw [hnext]
  · have hw : wrap32 (rs.length : Int) = (rs.length : Int) := by
      simp only [wrap32]
      omega
    rw [hnext, hw, toString_int_ofNat]

/-- C5 witness: after `init{node_id = n1}` (one reply sent), `generate`
is answered with id `"n1-1"`. -/
theorem c5_witness :
    ∃ n' r,
      nodeAfterInit.handle { src := "c1", dest := "n1",
                             body := { msg_id := some 2, in_reply_to := none,
                                       payload := .Generate } }
        = .ok (n', some r) ∧
      r.body.payload = .GenerateOk ("n1" ++ "-" ++ toString (wrap32 1)) ∧
      ((1 : Nat) < 2147483648 →
        r.body.payload = .GenerateOk ("n1" ++ "-" ++ toString (1 : Nat))) :=
  c5_generate_id_format [some initMsg] [initReply] nodeAfterInit "n1" "c1" "n1"
    (some 2) none rfl rfl

/-- C6: a topology request is answered with a `topology` payload whose
roster is empty (not `topology_ok`); the supplied roster is discarded and
no node field other than `next_msg_id` changes. -/
theorem c6_topology_reply (n : Node) (m : Message) (ids : List String)
    (h : m.body.payload = .Topology ids) :
    n.handle m
      = .ok ({ n with next_msg_id := wrap32 (n.next_msg_id + 1) },
             some { src := m.dest, dest := m.src
                    body := { msg_id := some n.next_msg_id, in_reply_to := m.body.msg_id
                              payload := .Topology [] } }) := by
  obtain ⟨s, d, mid, irt, pl⟩ := m
  subst h
  simp [Node.handle, Node.reply]

/-- C6 witness: a fresh node answering a topology request carrying the
roster `["n1", "n2"]`. -/
theorem c6_witness :
    Node.new.handle topoMsg
      = .ok (nodeOne,
          some { src := "n1", dest := "c1",
                 body := { msg_id := some 0, in_reply_to := some 4,
                           payload := .Topology [] } }) :=
  c6_topology_reply Node.new topoMsg ["n1", "n2"] rfl

/-- C7: an inbound message whose payload is any reply variant (`init_ok`,
`echo_ok`, `generate_ok`, `topology_ok`, `broadcast_ok`, `read_ok`) is
silently ignored: no reply, state unchanged. -/
theorem c7_ok_payloads_ignored (n : Node) (m : Message)
    (h : m.body.payload.isOkVariant = true) :
    n.handle m = .ok (n, none) := by
  obtain ⟨s, d, mid, irt, pl⟩ := m
  cases pl <;> simp [Payload.isOkVariant] at h <;> rfl

/-- C7 witness: an inbound `broadcast_ok` is ignored. -/
theorem c7_witness : Node.new.handle okMsg = .ok (Node.new, none) :=
  c7_ok_payloads_ignored Node.new okMsg rfl

/-- C8: `generate_id` on a node whose identity was never set fails with
the diagnostic of the `expect` (and handling a `generate` request then
fails the same way, never yielding a default id); once the identity is
set, `generate_id` always succeeds. -/
theorem c8_generate_requires_init (n : Node) (m : Message) :
    (n.node_id = none →
        n.generate_id = .error "generating id before init" ∧
          (m.body.payload = .Generate →
            n.handle m = .error "generating id before init")) ∧
      ∀ nid : String, n.node_id = some nid →
        n.generate_id = .ok (nid ++ "-" ++ toString n.next_msg_id) := by
  refine ⟨fun h => ⟨?_, fun hm => ?_⟩, fun nid h => ?_⟩
  · simp [Node.generate_id, h]
  · obtain ⟨s, d, mid, irt, pl⟩ := m
    subst hm
    simp [Node.handle, Node.generate_id, h]
  · simp [Node.generate_id, h]

/-- C8 witness: a fresh node fails to generate, an initialized node
succeeds. -/
theorem c8_witness :
    (Node.new.generate_id = .error "generating id before init" ∧
        Node.new.handle genMsg = .error "generating id before init") ∧
      nodeAfterInit.generate_id = .ok ("n1" ++ "-" ++ toString (1 : Int)) :=
  ⟨⟨((c8_generate_requires_init Node.new genMsg).1 rfl).1,
    ((c8_generate_requires_init Node.new genMsg).1 rfl).2 rfl⟩,
   (c8_generate_requires_init nodeAfterInit genMsg).2 "n1" rfl⟩

/-- C9: when the stream contains a unit that cannot be decoded, the loop
emits exactly the replies of the well-formed prefix, aborts with the
decode error, and neither skips the malformed unit nor processes anything
after it. -/
theorem c9_decode_error_aborts (n n' : Node) (xs rest : List (Option Message))
    (h : (n.run xs).2 = .ok n') :
    n.run (xs ++ none :: rest)
      = ((n.run xs).1, .error "STDIN could not be deserialized") := by
  rw [run_append_ok (none :: rest) h]
  simp [Node.run]

/-- C9 witness: a malformed first unit aborts before a well-formed init
request behind it. -/
theorem c9_witness :
    Node.new.run [none, some initMsg]
      = ([], .error "STDIN could not be deserialized") :=
  c9_decode_error_aborts Node.new Node.new [] [some initMsg] rfl

/-- C10: no operation mutates the `messages` log — every successful
`handle` preserves it — so any run from a fresh node ends (when it ends
successfully) with an empty log and every `read_ok` reply it ever emits
carries the empty list. -/
theorem c10_log_always_empty :
    (∀ (n : Node) (m : Message) (n' : Node) (r : Option Message),
        n.handle m = .ok (n', r) → n'.messages = n.messages) ∧
      ∀ input : List (Option Message),
        (∀ n', (Node.new.run input).2 = .ok n' → n'.messages = []) ∧
          ∀ r ∈ (Node.new.run input).1, ∀ l, r.body.payload = .ReadOk l → l = [] := by
  constructor
  · intro n m n' r h
    cases r with
    | none => rw [handle_ok_none h]
    | some rr => exact (handle_ok_some h).2.2.2.2.2.1
  · intro input
    have h := run_messages Node.new input
    simpa [Node.new] using h

/-- C10 witness: the state after init, broadcast, read still has an empty
log. -/
theorem c10_witness : nodeThree.messages = [] :=
  (c10_log_always_empty.2 [some initMsg, some bcastMsg, some readMsg]).1 nodeThree rfl

end DistSys
